import Mathlib

/-!
Verification of the agent metrics-and-gamification engine: the session/event
lifecycle, the per-agent profile aggregation, the pure XP/level/streak scoring
functions, the cost estimator, and the persistence round trip.

The implementation modules (`xp_calculations`, `agent_metrics`, `metrics`) are
not part of the source tree; only their tests, examples and verification
scripts are.  Every definition below is therefore modelled from the
specification, and checked against the behaviour the tests demand.
-/

/-- Modelled from the spec: outcome status of one agent invocation,
`status ∈ {success, error, timeout, blocked}` (missing module `metrics`). -/
inductive AgentStatus where
  | success
  | error
  | timeout
  | blocked
deriving DecidableEq, Repr

/-- Modelled from the spec: the fixed ascending level thresholds
`[0, 50, 150, 400, 800, 1500, 3000, 5000]` mapping to levels 1 through 8
(missing module `xp_calculations`). -/
def get_level_thresholds : List ℤ := [0, 50, 150, 400, 800, 1500, 3000, 5000]

/-- Modelled from the spec: level as a pure function of XP — XP at or above a
threshold and below the next belongs to that level, XP at or above 5000 caps
at level 8, XP below 0 is clamped to level 1
(missing module `xp_calculations`). -/
def calculate_level_from_xp (xp : ℤ) : ℕ :=
  get_level_thresholds.enum.foldl
    (fun lvl it => if it.2 ≤ xp then it.1 + 1 else lvl) 1

/-- Modelled from the spec: base XP award for any successful invocation,
a configurable base amount (missing module `xp_calculations`). -/
def calculate_xp_for_successful_invocation (base_xp : ℤ) : ℤ := base_xp

/-- Modelled from the spec: speed bonus — 10 if duration < 30s, 5 if
30s ≤ duration < 60s, 0 otherwise, strictly-less-than at each boundary
(missing module `xp_calculations`). -/
def calculate_speed_bonus (duration_seconds : ℚ) : ℤ :=
  if duration_seconds < 30 then 10
  else if duration_seconds < 60 then 5
  else 0

/-- Modelled from the spec: error-recovery bonus — 10 if the invocation
immediately follows a non-success status and the post-update streak is
exactly 1, otherwise 0 (missing module `xp_calculations`). -/
def calculate_error_recovery_bonus
    (current_streak : ℤ) (previous_status : AgentStatus) : ℤ :=
  if current_streak = 1 ∧ previous_status ≠ AgentStatus.success then 10 else 0

/-- Modelled from the spec: streak bonus equals the post-update streak
length, floored at 0 for non-positive inputs (missing module
`xp_calculations`). -/
def calculate_streak_bonus (current_streak : ℤ) : ℤ := max current_streak 0

/-- Modelled from the spec: total XP for a success = base + speed bonus +
error-recovery bonus + contribution XP + streak bonus
(missing module `xp_calculations`). -/
def calculate_total_xp_for_success (base_xp : ℤ) (duration_seconds : ℚ)
    (current_streak : ℤ) (previous_status : AgentStatus)
    (contribution_xp : ℤ) : ℤ :=
  calculate_xp_for_successful_invocation base_xp
    + calculate_speed_bonus duration_seconds
    + calculate_error_recovery_bonus current_streak previous_status
    + contribution_xp
    + calculate_streak_bonus current_streak

/-- Modelled from the spec: the fixed contribution-type XP table, failing
with an InvalidArgument error naming the unknown kind on any other input
(missing module `xp_calculations`). -/
def calculate_xp_for_contribution_type (contribution_type : String) :
    Except String ℤ :=
  if contribution_type = "commit" then Except.ok 5
  else if contribution_type = "pr_created" then Except.ok 15
  else if contribution_type = "pr_merged" then Except.ok 30
  else if contribution_type = "test_written" then Except.ok 20
  else if contribution_type = "ticket_completed" then Except.ok 25
  else if contribution_type = "file_created" then Except.ok 3
  else if contribution_type = "file_modified" then Except.ok 2
  else if contribution_type = "issue_created" then Except.ok 8
  else Except.error ("Unknown contribution type: " ++ contribution_type)

/-- Modelled from the spec: `update_streak` — negative inputs are treated as
0 first; on success the current streak increments, otherwise it resets to 0;
the best streak is the max of the old best and the new current streak
(missing module `xp_calculations`).  The previous-status argument is unused,
as the spec notes. -/
def update_streak (current_streak : ℤ) (_previous_status : AgentStatus)
    (new_status : AgentStatus) (best_streak : ℤ) : ℤ × ℤ :=
  let c := max current_streak 0
  let b := max best_streak 0
  let c2 := if new_status = AgentStatus.success then c + 1 else 0
  (c2, max b c2)

/-- Modelled from the spec: cost estimator,
`estimated_cost_usd = (input/1000) × 0.003 + (output/1000) × 0.015`
(missing module `agent_metrics`). -/
def estimate_cost (input_tokens output_tokens : ℕ) : ℚ :=
  (input_tokens : ℚ) / 1000 * 0.003 + (output_tokens : ℚ) / 1000 * 0.015

/-- Modelled from the spec: one finalized agent invocation record
(missing module `metrics`, `AgentEvent` with its 15 fields). -/
structure AgentEvent where
  event_id : String
  agent_name : String
  session_id : String
  ticket_key : String
  started_at : ℚ
  ended_at : ℚ
  duration_seconds : ℚ
  status : AgentStatus
  input_tokens : ℕ
  output_tokens : ℕ
  total_tokens : ℕ
  estimated_cost_usd : ℚ
  artifacts : List String
  error_message : String
  model_used : String
deriving DecidableEq, Repr

/-- Modelled from the spec: the in-flight state of one Event Tracker scope,
mutated by `set_tokens` / `add_artifact` / `set_error` before finalization
(missing module `agent_metrics`). -/
structure AgentTracker where
  agent_name : String
  ticket_key : String
  started_at : ℚ
  input_tokens : ℕ
  output_tokens : ℕ
  artifacts : List String
  status : AgentStatus
  error_message : String
deriving DecidableEq, Repr

/-- Modelled from the spec: a freshly opened tracker scope — zero tokens, no
artifacts, default status success (missing module `agent_metrics`). -/
def init_tracker (agent_name ticket_key : String) (started_at : ℚ) :
    AgentTracker :=
  ⟨agent_name, ticket_key, started_at, 0, 0, [], AgentStatus.success, ""⟩

/-- Modelled from the spec: `set_tokens` records input/output token counts
(missing module `agent_metrics`). -/
def AgentTracker.set_tokens (t : AgentTracker) (input output : ℕ) :
    AgentTracker :=
  { t with input_tokens := input, output_tokens := output }

/-- Modelled from the spec: `add_artifact` appends an artifact identifier
(missing module `agent_metrics`). -/
def AgentTracker.add_artifact (t : AgentTracker) (identifier : String) :
    AgentTracker :=
  { t with artifacts := t.artifacts ++ [identifier] }

/-- Modelled from the spec: `set_error` marks an explicit failure with a
message and a failure kind (missing module `agent_metrics`). -/
def AgentTracker.set_error (t : AgentTracker) (message : String)
    (kind : AgentStatus) : AgentTracker :=
  { t with status := kind, error_message := message }

/-- Modelled from the spec: scope-exit finalization — record the end
timestamp, derive duration = end − start, compute total tokens and the
estimated cost (missing module `agent_metrics`). -/
def finalize_event (t : AgentTracker) (event_id session_id model_used : String)
    (ended_at : ℚ) : AgentEvent :=
  ⟨event_id, t.agent_name, session_id, t.ticket_key, t.started_at, ended_at,
    ended_at - t.started_at, t.status, t.input_tokens, t.output_tokens,
    t.input_tokens + t.output_tokens,
    estimate_cost t.input_tokens t.output_tokens,
    t.artifacts, t.error_message, model_used⟩

/-- Modelled from the spec: XP award for a finalized event — a success earns
`calculate_total_xp_for_success`, a failure awards 0 XP
(missing module `agent_metrics`). -/
def xp_award_for_event (status : AgentStatus) (duration_seconds : ℚ)
    (post_update_streak : ℤ) (previous_status : AgentStatus)
    (contribution_xp : ℤ) : ℤ :=
  if status = AgentStatus.success then
    calculate_total_xp_for_success 10 duration_seconds post_update_streak
      previous_status contribution_xp
  else 0

/-- Claim C1: for every pair of non-negative token counts (i, o) recorded via
`set_tokens`, the finalized event has `total_tokens = i + o` and
`estimated_cost_usd = i/1000 × 0.003 + o/1000 × 0.015`; in particular
i = 1000, o = 500 yields cost 0.0105. -/
theorem c1_token_totals_and_cost (i o : ℕ) (agent ticket eid sid model : String)
    (t0 t1 : ℚ) :
    (finalize_event ((init_tracker agent ticket t0).set_tokens i o)
        eid sid model t1).total_tokens = i + o ∧
    (finalize_event ((init_tracker agent ticket t0).set_tokens i o)
        eid sid model t1).estimated_cost_usd
      = (i : ℚ) / 1000 * 0.003 + (o : ℚ) / 1000 * 0.015 ∧
    (finalize_event ((init_tracker agent ticket t0).set_tokens 1000 500)
        eid sid model t1).estimated_cost_usd = 0.0105 := by
  refine ⟨rfl, rfl, ?_⟩
  show estimate_cost 1000 500 = 0.0105
  norm_num [estimate_cost]

/-- Claim C2: `calculate_level_from_xp` maps every integer XP into levels 1
through 8 via the ascending thresholds [0, 50, 150, 400, 800, 1500, 3000,
5000]: XP at or above a threshold and below the next belongs to that level,
XP ≥ 5000 gives level 8 regardless of magnitude, and XP < 0 gives level 1. -/
theorem c2_level_from_xp (xp : ℤ) :
    (∀ i : ℕ, i < 8 → get_level_thresholds.getD i 0 ≤ xp →
      (i + 1 < 8 → xp < get_level_thresholds.getD (i + 1) 0) →
      calculate_level_from_xp xp = i + 1) ∧
    (5000 ≤ xp → calculate_level_from_xp xp = 8) ∧
    (xp < 0 → calculate_level_from_xp xp = 1) := by
  have hunf : calculate_level_from_xp xp =
      if 5000 ≤ xp then 8 else if 3000 ≤ xp then 7 else if 1500 ≤ xp then 6
      else if 800 ≤ xp then 5 else if 400 ≤ xp then 4 else if 150 ≤ xp then 3
      else if 50 ≤ xp then 2 else if 0 ≤ xp then 1 else 1 := by
    simp only [calculate_level_from_xp, get_level_thresholds, List.enum,
      List.enumFrom, List.foldl]
  refine ⟨?_, ?_, ?_⟩
  · intro i hi hlo hhi
    rw [hunf]
    interval_cases i
    · have h1 : (0 : ℤ) ≤ xp := hlo
      have h2 : xp < 50 := hhi (by norm_num)
      split_ifs <;> omega
    · have h1 : (50 : ℤ) ≤ xp := hlo
      have h2 : xp < 150 := hhi (by norm_num)
      split_ifs <;> omega
    · have h1 : (150 : ℤ) ≤ xp := hlo
      have h2 : xp < 400 := hhi (by norm_num)
      split_ifs <;> omega
    · have h1 : (400 : ℤ) ≤ xp := hlo
      have h2 : xp < 800 := hhi (by norm_num)
      split_ifs <;> omega
    · have h1 : (800 : ℤ) ≤ xp := hlo
      have h2 : xp < 1500 := hhi (by norm_num)
      split_ifs <;> omega
    · have h1 : (1500 : ℤ) ≤ xp := hlo
      have h2 : xp < 3000 := hhi (by norm_num)
      split_ifs <;> omega
    · have h1 : (3000 : ℤ) ≤ xp := hlo
      have h2 : xp < 5000 := hhi (by norm_num)
      split_ifs <;> omega
    · have h1 : (5000 : ℤ) ≤ xp := hlo
      split_ifs <;> omega
  · intro h
    rw [hunf]
    split_ifs
    all_goals omega
  · intro h
    rw [hunf]
    split_ifs
    all_goals omega

/-- Claim C2, witness: concrete instances of the interval, cap and clamp
cases. -/
theorem c2_level_from_xp_witness :
    calculate_level_from_xp 75 = 2 ∧ calculate_level_from_xp 1000000 = 8 ∧
    calculate_level_from_xp (-100) = 1 := by
  refine ⟨(c2_level_from_xp 75).1 1 (by norm_num) (by decide)
      (fun _ => by decide), (c2_level_from_xp 1000000).2.1 (by norm_num),
    (c2_level_from_xp (-100)).2.2 (by norm_num)⟩

/-- Claim C3: for every successful invocation the total XP award equals
base + speed bonus + error-recovery bonus + contribution XP + streak bonus,
and is never negative (for the system's non-negative base and contribution
values); a failed invocation awards 0 XP; in particular base = 10,
duration = 25.0 s, post-update streak = 1, previous status error,
contribution 30 yields exactly 61. -/
theorem c3_total_xp_for_success (base : ℤ) (d : ℚ) (streak : ℤ)
    (prev : AgentStatus) (contribution : ℤ)
    (hbase : 0 ≤ base) (hcontr : 0 ≤ contribution) :
    calculate_total_xp_for_success base d streak prev contribution
      = base + calculate_speed_bonus d
          + calculate_error_recovery_bonus streak prev
          + contribution + calculate_streak_bonus streak ∧
    0 ≤ calculate_total_xp_for_success base d streak prev contribution ∧
    (∀ st : AgentStatus, st ≠ AgentStatus.success →
      xp_award_for_event st d streak prev contribution = 0) ∧
    calculate_total_xp_for_success 10 25 1 AgentStatus.error 30 = 61 := by
  refine ⟨rfl, ?_, ?_, by decide⟩
  · have h1 : 0 ≤ calculate_speed_bonus d := by
      unfold calculate_speed_bonus; split_ifs <;> norm_num
    have h2 : 0 ≤ calculate_error_recovery_bonus streak prev := by
      unfold calculate_error_recovery_bonus; split_ifs <;> norm_num
    have h3 : 0 ≤ calculate_streak_bonus streak := le_max_right _ _
    unfold calculate_total_xp_for_success calculate_xp_for_successful_invocation
    omega
  · intro st hst
    unfold xp_award_for_event
    rw [if_neg hst]

/-- Claim C3, witness: the all-bonuses instance at base = 10,
duration = 25.0 s, streak = 1, previous status error, contribution 30. -/
theorem c3_total_xp_for_success_witness :
    calculate_total_xp_for_success 10 25 1 AgentStatus.error 30
      = 10 + calculate_speed_bonus 25
          + calculate_error_recovery_bonus 1 AgentStatus.error
          + 30 + calculate_streak_bonus 1 ∧
    0 ≤ calculate_total_xp_for_success 10 25 1 AgentStatus.error 30 ∧
    calculate_total_xp_for_success 10 25 1 AgentStatus.error 30 = 61 := by
  obtain ⟨h1, h2, _, h4⟩ :=
    c3_total_xp_for_success 10 25 1 AgentStatus.error 30 (by norm_num)
      (by norm_num)
  exact ⟨h1, h2, h4⟩

/-- Claim C5: `update_streak` treats negative inputs as 0 first; on success
the new current streak is the (clamped) old streak plus one, otherwise 0; the
new best streak is the max of the (clamped) old best and the new current
streak; and the best streak never decreases across any sequence of updates. -/
theorem c5_update_streak (c b : ℤ) (prev new : AgentStatus) :
    (new = AgentStatus.success →
      (update_streak c prev new b).1 = max c 0 + 1) ∧
    (new ≠ AgentStatus.success → (update_streak c prev new b).1 = 0) ∧
    (update_streak c prev new b).2
      = max (max b 0) (update_streak c prev new b).1 ∧
    max b 0 ≤ (update_streak c prev new b).2 ∧
    (∀ l : List AgentStatus, 0 ≤ b →
      b ≤ (l.foldl
        (fun s n => update_streak s.1 AgentStatus.success n s.2) (c, b)).2) := by
  refine ⟨fun h => by simp [update_streak, h], fun h => by simp [update_streak, h],
    by simp [update_streak], le_max_left _ _, ?_⟩
  have step : ∀ (c' b' : ℤ) (n : AgentStatus),
      max b' 0 ≤ (update_streak c' AgentStatus.success n b').2 := by
    intro c' b' n
    simp only [update_streak]
    exact le_max_left _ _
  intro l
  induction l generalizing c b with
  | nil => intro _; exact le_refl b
  | cons n rest ih =>
    intro hb
    simp only [List.foldl_cons]
    have hstep : b ≤ (update_streak c AgentStatus.success n b).2 :=
      le_trans (le_max_left b 0) (step c b n)
    have h0 : (0 : ℤ) ≤ (update_streak c AgentStatus.success n b).2 :=
      le_trans hb hstep
    exact le_trans hstep
      (ih (update_streak c AgentStatus.success n b).1
        (update_streak c AgentStatus.success n b).2 h0)

/-- Claim C5, witness: a success from streak 2 / best 1 gives current 3 and
best 3; an error resets to 0 while best 10 is preserved; a fold over three
successes from (0, 0) keeps the best at least 0. -/
theorem c5_update_streak_witness :
    (update_streak 2 AgentStatus.success AgentStatus.success 1).1
      = max (2 : ℤ) 0 + 1 ∧
    (update_streak 2 AgentStatus.success AgentStatus.error 10).1 = 0 ∧
    max (10 : ℤ) 0
      ≤ (update_streak 2 AgentStatus.success AgentStatus.error 10).2 ∧
    (0 : ℤ) ≤ (([AgentStatus.success, AgentStatus.success,
        AgentStatus.success] : List AgentStatus).foldl
      (fun s n => update_streak s.1 AgentStatus.success n s.2) (0, 0)).2 := by
  refine ⟨(c5_update_streak 2 1 AgentStatus.success AgentStatus.success).1 rfl,
    (c5_update_streak 2 10 AgentStatus.success AgentStatus.error).2.1
      (by decide),
    (c5_update_streak 2 10 AgentStatus.success AgentStatus.error).2.2.2.1,
    (c5_update_streak 0 0 AgentStatus.success AgentStatus.success).2.2.2.2 _
      (le_refl 0)⟩

/-- Claim C6: the speed bonus is exactly 10 if duration < 30, exactly 5 if
30 ≤ duration < 60, and 0 if 60 ≤ duration, with strict less-than at each
boundary so that 30 yields 5 and 60 yields 0. -/
theorem c6_speed_bonus (d : ℚ) :
    (d < 30 → calculate_speed_bonus d = 10) ∧
    (30 ≤ d → d < 60 → calculate_speed_bonus d = 5) ∧
    (60 ≤ d → calculate_speed_bonus d = 0) := by
  unfold calculate_speed_bonus
  refine ⟨fun h => by rw [if_pos h], fun h1 h2 => ?_, fun h => ?_⟩
  · rw [if_neg (by linarith), if_pos h2]
  · rw [if_neg (by linarith), if_neg (by linarith)]

/-- Claim C6, witness: the boundary values 30 and 60 and an interior fast
value 15. -/
theorem c6_speed_bonus_witness :
    calculate_speed_bonus 15 = 10 ∧ calculate_speed_bonus 30 = 5 ∧
    calculate_speed_bonus 60 = 0 :=
  ⟨(c6_speed_bonus 15).1 (by norm_num),
    (c6_speed_bonus 30).2.1 (by norm_num) (by norm_num),
    (c6_speed_bonus 60).2.2 (by norm_num)⟩

/-- Claim C8: the contribution-type lookup returns the fixed value for each
of the eight known kinds and fails with an error naming the unknown kind on
every other input string, never returning a value for an unrecognized kind. -/
theorem c8_contribution_type_table (s : String)
    (hs : s ∉ (["commit", "pr_created", "pr_merged", "test_written",
      "ticket_completed", "file_created", "file_modified",
      "issue_created"] : List String)) :
    calculate_xp_for_contribution_type "commit" = Except.ok 5 ∧
    calculate_xp_for_contribution_type "pr_created" = Except.ok 15 ∧
    calculate_xp_for_contribution_type "pr_merged" = Except.ok 30 ∧
    calculate_xp_for_contribution_type "test_written" = Except.ok 20 ∧
    calculate_xp_for_contribution_type "ticket_completed" = Except.ok 25 ∧
    calculate_xp_for_contribution_type "file_created" = Except.ok 3 ∧
    calculate_xp_for_contribution_type "file_modified" = Except.ok 2 ∧
    calculate_xp_for_contribution_type "issue_created" = Except.ok 8 ∧
    calculate_xp_for_contribution_type s
      = Except.error ("Unknown contribution type: " ++ s) ∧
    (∀ v : ℤ, calculate_xp_for_contribution_type s ≠ Except.ok v) := by
  simp only [List.mem_cons, List.not_mem_nil, or_false, not_or] at hs
  obtain ⟨h1, h2, h3, h4, h5, h6, h7, h8⟩ := hs
  have herr : calculate_xp_for_contribution_type s
      = Except.error ("Unknown contribution type: " ++ s) := by
    unfold calculate_xp_for_contribution_type
    rw [if_neg h1, if_neg h2, if_neg h3, if_neg h4, if_neg h5, if_neg h6,
      if_neg h7, if_neg h8]
  refine ⟨rfl, rfl, rfl, rfl, rfl, rfl, rfl, rfl, herr, fun v hv => ?_⟩
  rw [herr] at hv
  exact Except.noConfusion hv

/-- Claim C8, witness: the table holds and the concrete unknown kind
"unknown_contribution" is rejected with an error naming it. -/
theorem c8_contribution_type_table_witness :
    calculate_xp_for_contribution_type "commit" = Except.ok 5 ∧
    calculate_xp_for_contribution_type "unknown_contribution"
      = Except.error ("Unknown contribution type: " ++ "unknown_contribution") := by
  obtain ⟨h1, _, _, _, _, _, _, _, h9, _⟩ :=
    c8_contribution_type_table "unknown_contribution" (by decide)
  exact ⟨h1, h9⟩

/-- Modelled from the spec: running aggregate for one agent name, with the
33 fields the specification lists (missing module `metrics`,
`AgentProfile`). -/
structure AgentProfile where
  agent_name : String
  total_invocations : ℕ
  successful_invocations : ℕ
  failed_invocations : ℕ
  total_tokens : ℕ
  total_cost_usd : ℚ
  total_duration_seconds : ℚ
  commits : ℕ
  prs_created : ℕ
  prs_merged : ℕ
  files_created : ℕ
  files_modified : ℕ
  lines_added : ℕ
  lines_removed : ℕ
  tests_written : ℕ
  issues_created : ℕ
  issues_completed : ℕ
  messages_sent : ℕ
  reviews_completed : ℕ
  success_rate : ℚ
  avg_duration_seconds : ℚ
  avg_tokens_per_call : ℚ
  cost_per_success : ℚ
  xp : ℤ
  level : ℕ
  current_streak : ℤ
  best_streak : ℤ
  achievements : List String
  strengths : List String
  weaknesses : List String
  recent_events : List String
  last_error : String
  last_active : ℚ
deriving DecidableEq, Repr

/-- Modelled from the spec: closure record for one session
(missing module `metrics`, `SessionSummary`). -/
structure SessionSummary where
  session_id : String
  session_number : ℕ
  session_type : String
  started_at : ℚ
  ended_at : ℚ
  status : String
  agents_invoked : List String
  total_tokens : ℕ
  total_cost_usd : ℚ
  tickets_worked : List String
deriving DecidableEq, Repr

/-- Modelled from the spec: the single persisted root
(missing module `metrics`, `DashboardState`). -/
structure DashboardState where
  schema_version : ℕ
  project_name : String
  created_at : ℚ
  updated_at : ℚ
  total_sessions : ℕ
  total_tokens : ℕ
  total_cost_usd : ℚ
  total_duration_seconds : ℚ
  agents : List (String × AgentProfile)
  events : List AgentEvent
  sessions : List SessionSummary
deriving DecidableEq, Repr

/-- Modelled from the spec: the currently open session owned by the Session
Lifecycle Manager (missing module `agent_metrics`). -/
structure ActiveSession where
  session_id : String
  session_number : ℕ
  session_type : String
  started_at : ℚ
  events : List AgentEvent
deriving DecidableEq, Repr

/-- Modelled from the spec: one collector instance — the loaded dashboard
state plus the at-most-one open session
(missing module `agent_metrics`, `AgentMetricsCollector`). -/
structure Collector where
  state : DashboardState
  current : Option ActiveSession
deriving DecidableEq, Repr

/-- Modelled from the spec: a fresh DashboardState (version 1, all totals
zero) used when no persisted document exists
(missing module `agent_metrics`). -/
def fresh_state : DashboardState :=
  ⟨1, "project", 0, 0, 0, 0, 0, 0, [], [], []⟩

/-- Modelled from the spec: the zero-valued profile shape created lazily on
an agent's first event — all counters zero, xp 0, level 1
(missing module `agent_metrics`). -/
def fresh_profile (name : String) : AgentProfile :=
  ⟨name, 0, 0, 0, 0, 0, 0, 0, 0, 0, 0, 0, 0, 0, 0, 0, 0, 0, 0,
    0, 0, 0, 0, 0, 1, 0, 0, [], [], [], [], "", 0⟩

/-- Name-keyed lookup in the agents mapping. -/
def lookup_profile : List (String × AgentProfile) → String → Option AgentProfile
  | [], _ => none
  | (n, p) :: rest, name =>
      if n = name then some p else lookup_profile rest name

/-- Name-keyed replace-or-append in the agents mapping. -/
def upsert_profile : List (String × AgentProfile) → String → AgentProfile →
    List (String × AgentProfile)
  | [], name, p => [(name, p)]
  | (n, q) :: rest, name, p =>
      if n = name then (n, p) :: rest
      else (n, q) :: upsert_profile rest name p

/-- Modelled from the spec: the previous outcome status of this agent — the
status of its most recent recorded event, if any
(missing module `agent_metrics`). -/
def previous_status_of (events : List AgentEvent) (name : String) :
    Option AgentStatus :=
  ((events.filter (fun e => e.agent_name = name)).getLast?).map
    (fun e => e.status)

/-- Modelled from the spec: Profile Aggregator — folds a finalized event
into the agent's profile: increments counters, adds resource totals,
recomputes derived rates (division by zero yields 0), updates streaks via
`update_streak`, adds the XP award, recomputes the level, appends the event
identifier to the bounded recent-events window, and on failure records the
last error (missing module `agent_metrics`). -/
def apply_event_to_profile (p : AgentProfile) (prev : Option AgentStatus)
    (e : AgentEvent) : AgentProfile :=
  let total := p.total_invocations + 1
  let succ := if e.status = AgentStatus.success
    then p.successful_invocations + 1 else p.successful_invocations
  let failed := if e.status = AgentStatus.success
    then p.failed_invocations else p.failed_invocations + 1
  let tokens := p.total_tokens + e.total_tokens
  let cost := p.total_cost_usd + e.estimated_cost_usd
  let dur := p.total_duration_seconds + e.duration_seconds
  let prev_status := prev.getD AgentStatus.success
  let sb := update_streak p.current_streak prev_status e.status p.best_streak
  let award := xp_award_for_event e.status e.duration_seconds sb.1
    prev_status 0
  let xp2 := p.xp + award
  let re := p.recent_events ++ [e.event_id]
  { p with
    total_invocations := total,
    successful_invocations := succ,
    failed_invocations := failed,
    total_tokens := tokens,
    total_cost_usd := cost,
    total_duration_seconds := dur,
    success_rate := if total = 0 then 0 else (succ : ℚ) / (total : ℚ),
    avg_duration_seconds := if total = 0 then 0 else dur / (total : ℚ),
    avg_tokens_per_call := if total = 0 then 0 else (tokens : ℚ) / (total : ℚ),
    cost_per_success := if succ = 0 then 0 else cost / (succ : ℚ),
    xp := xp2,
    level := calculate_level_from_xp xp2,
    current_streak := sb.1,
    best_streak := sb.2,
    recent_events := re.drop (re.length - 10),
    last_error := if e.status = AgentStatus.success
      then p.last_error else e.error_message,
    last_active := e.ended_at }

/-- Modelled from the spec: `start_session` — only valid when no session is
active, otherwise fails with an InvalidState error
(missing module `agent_metrics`). -/
def start_session (c : Collector) (session_num : ℕ) (is_init : Bool)
    (session_id : String) (now : ℚ) : Except String Collector :=
  match c.current with
  | some _ => Except.error "InvalidState: a session is already active"
  | none => Except.ok ⟨c.state,
      some ⟨session_id, session_num,
        if is_init then "initializer" else "continuation", now, []⟩⟩

/-- Modelled from the spec: `track_agent` scope — opens a tracker, lets the
caller record tokens/artifacts/errors via `body`, then always finalizes the
event and hands it to the Profile Aggregator and the active session's event
list; fails with an InvalidState error outside an active session
(missing module `agent_metrics`). -/
def track_agent (c : Collector) (agent_name ticket_key : String)
    (body : AgentTracker → AgentTracker) (event_id model_used : String)
    (started_at ended_at : ℚ) : Except String Collector :=
  match c.current with
  | none => Except.error "InvalidState: no active session"
  | some sess =>
    let t := body (init_tracker agent_name ticket_key started_at)
    let e := finalize_event t event_id sess.session_id model_used ended_at
    let prev := previous_status_of c.state.events agent_name
    let p := (lookup_profile c.state.agents agent_name).getD
      (fresh_profile agent_name)
    let p2 := apply_event_to_profile p prev e
    Except.ok ⟨{ c.state with
        agents := upsert_profile c.state.agents agent_name p2,
        events := c.state.events ++ [e] },
      some { sess with events := sess.events ++ [e] }⟩

/-- Dedupe keeping the first occurrence of each name, in order. -/
def first_appearances : List String → List String
  | [] => []
  | a :: rest => a :: first_appearances (rest.filter (fun x => x ≠ a))
termination_by l => l.length
decreasing_by
  simp only [List.length_cons]
  exact Nat.lt_succ_of_le (List.length_filter_le _ _)

/-- Modelled from the spec: the SessionSummary computed on session close —
distinct agent names in order of first appearance, token/cost totals summed
over the session's events, distinct non-empty ticket keys
(missing module `agent_metrics`). -/
def mk_session_summary (sess : ActiveSession) (status : String) (now : ℚ) :
    SessionSummary :=
  ⟨sess.session_id, sess.session_number, sess.session_type, sess.started_at,
    now, status,
    first_appearances (sess.events.map (fun e => e.agent_name)),
    (sess.events.map (fun e => e.total_tokens)).sum,
    (sess.events.map (fun e => e.estimated_cost_usd)).sum,
    first_appearances
      ((sess.events.map (fun e => e.ticket_key)).filter (fun k => k ≠ ""))⟩

/-- Modelled from the spec: `end_session` — only valid from an active
session; computes the summary, appends it, updates running totals and
transitions back to idle; fails with an InvalidState error when idle
(missing module `agent_metrics`). -/
def end_session (c : Collector) (status : String) (now : ℚ) :
    Except String (Collector × SessionSummary) :=
  match c.current with
  | none => Except.error "InvalidState: no active session"
  | some sess =>
    let s := mk_session_summary sess status now
    Except.ok (⟨{ c.state with
        total_sessions := c.state.total_sessions + 1,
        total_tokens := c.state.total_tokens + s.total_tokens,
        total_cost_usd := c.state.total_cost_usd + s.total_cost_usd,
        total_duration_seconds :=
          c.state.total_duration_seconds + (now - sess.started_at),
        updated_at := now,
        sessions := c.state.sessions ++ [s] },
      none⟩, s)

/-- Modelled from the spec: `get_agent_profile` returns a zero-valued
profile shape if the agent has never been invoked
(missing module `agent_metrics`). -/
def get_agent_profile (c : Collector) (name : String) : AgentProfile :=
  (lookup_profile c.state.agents name).getD (fresh_profile name)

/-- A dedicated cons-style characterization of `List.indexOf`. -/
lemma indexOf_cons_eq_ite (a b : String) (l : List String) :
    List.indexOf a (b :: l) = if a = b then 0 else List.indexOf a l + 1 := by
  by_cases h : a = b
  · subst h; simp [List.indexOf_cons_self]
  · rw [List.indexOf_cons_ne l (Ne.symm h), if_neg h]

/-- Membership in `first_appearances` is membership in the original list. -/
lemma mem_first_appearances : ∀ (l : List String) (x : String),
    x ∈ first_appearances l ↔ x ∈ l
  | [], x => by simp [first_appearances]
  | a :: rest, x => by
    rw [show first_appearances (a :: rest)
        = a :: first_appearances (rest.filter (fun y => y ≠ a)) from by
      simp [first_appearances]]
    simp only [List.mem_cons]
    rw [mem_first_appearances (rest.filter (fun y => y ≠ a)) x]
    simp only [List.mem_filter, decide_eq_true_eq]
    by_cases hxa : x = a
    · simp [hxa]
    · simp [hxa]
termination_by l _ => l.length
decreasing_by
  simp only [List.length_cons]
  exact Nat.lt_succ_of_le (List.length_filter_le _ _)

/-- `first_appearances` never repeats a name. -/
lemma nodup_first_appearances : ∀ l : List String,
    (first_appearances l).Nodup
  | [] => by simp [first_appearances]
  | a :: rest => by
    rw [show first_appearances (a :: rest)
        = a :: first_appearances (rest.filter (fun y => y ≠ a)) from by
      simp [first_appearances]]
    refine List.nodup_cons.mpr ⟨?_, nodup_first_appearances _⟩
    intro hmem
    rw [mem_first_appearances] at hmem
    simp at hmem
termination_by l => l.length
decreasing_by
  simp only [List.length_cons]
  exact Nat.lt_succ_of_le (List.length_filter_le _ _)

/-- Filtering a list preserves the relative order of first occurrences. -/
lemma indexOf_filter_lt (p : String → Bool) :
    ∀ (l : List String) (x y : String), x ∈ l.filter p → y ∈ l.filter p →
      (l.filter p).indexOf x < (l.filter p).indexOf y →
      l.indexOf x < l.indexOf y := by
  intro l
  induction l with
  | nil => intro x y hx _ _; simp at hx
  | cons b rest ih =>
    intro x y hx hy hlt
    by_cases hpb : p b
    · rw [List.filter_cons_of_pos hpb] at hx hy hlt
      rw [indexOf_cons_eq_ite x b (rest.filter p),
        indexOf_cons_eq_ite y b (rest.filter p)] at hlt
      rw [indexOf_cons_eq_ite x b rest, indexOf_cons_eq_ite y b rest]
      by_cases hxb : x = b
      · by_cases hyb : y = b
        · rw [if_pos hxb, if_pos hyb] at hlt
          omega
        · rw [if_pos hxb] at hlt ⊢
          rw [if_neg hyb] at hlt ⊢
          omega
      · by_cases hyb : y = b
        · rw [if_neg hxb, if_pos hyb] at hlt
          omega
        · rw [if_neg hxb, if_neg hyb] at hlt ⊢
          have hx' : x ∈ rest.filter p := by
            rcases List.mem_cons.mp hx with h | h
            · exact absurd h hxb
            · exact h
          have hy' : y ∈ rest.filter p := by
            rcases List.mem_cons.mp hy with h | h
            · exact absurd h hyb
            · exact h
          have := ih x y hx' hy' (by omega)
          omega
    · rw [List.filter_cons_of_neg hpb] at hx hy hlt
      have hxb : x ≠ b := by
        intro h; subst h
        exact hpb (List.mem_filter.mp hx).2
      have hyb : y ≠ b := by
        intro h; subst h
        exact hpb (List.mem_filter.mp hy).2
      rw [indexOf_cons_eq_ite x b rest, indexOf_cons_eq_ite y b rest,
        if_neg hxb, if_neg hyb]
      have := ih x y hx hy hlt
      omega

/-- `first_appearances` lists names in order of their first occurrence:
its entries are strictly increasing in `indexOf` position. -/
lemma pairwise_indexOf_first_appearances : ∀ l : List String,
    List.Pairwise (fun x y => l.indexOf x < l.indexOf y)
      (first_appearances l)
  | [] => by simp [first_appearances]
  | a :: rest => by
    rw [show first_appearances (a :: rest)
        = a :: first_appearances (rest.filter (fun y => y ≠ a)) from by
      simp [first_appearances]]
    refine List.pairwise_cons.mpr ⟨?_, ?_⟩
    · intro y hy
      rw [mem_first_appearances] at hy
      obtain ⟨hym, hyp⟩ := List.mem_filter.mp hy
      have hya : y ≠ a := by simpa using hyp
      rw [indexOf_cons_eq_ite a a rest, if_pos rfl,
        indexOf_cons_eq_ite y a rest, if_neg hya]
      omega
    · have hp := pairwise_indexOf_first_appearances
        (rest.filter (fun y => y ≠ a))
      refine List.Pairwise.imp_of_mem ?_ hp
      intro x y hx hy hxy
      rw [mem_first_appearances] at hx hy
      obtain ⟨hxm, hxp⟩ := List.mem_filter.mp hx
      obtain ⟨hym, hyp⟩ := List.mem_filter.mp hy
      have hxa : x ≠ a := by simpa using hxp
      have hya : y ≠ a := by simpa using hyp
      rw [indexOf_cons_eq_ite x a rest, if_neg hxa,
        indexOf_cons_eq_ite y a rest, if_neg hya]
      have := indexOf_filter_lt (fun y => decide (y ≠ a)) rest x y hx hy hxy
      omega
termination_by l => l.length
decreasing_by
  simp only [List.length_cons]
  exact Nat.lt_succ_of_le (List.length_filter_le _ _)

/-- Claim C9: the SessionSummary produced by `end_session` lists each invoked
agent name exactly once in order of first appearance regardless of repeat
invocations, and its tickets_worked contains exactly the distinct non-empty
ticket keys of the session's events. -/
theorem c9_summary_distinct_agents_tickets (st : DashboardState)
    (sess : ActiveSession) (status : String) (now : ℚ) :
    (end_session ⟨st, some sess⟩ status now).toOption.map Prod.snd
      = some (mk_session_summary sess status now) ∧
    (mk_session_summary sess status now).agents_invoked.Nodup ∧
    (∀ a, a ∈ (mk_session_summary sess status now).agents_invoked ↔
      a ∈ sess.events.map (fun e => e.agent_name)) ∧
    (∀ a, a ∈ (mk_session_summary sess status now).agents_invoked →
      (mk_session_summary sess status now).agents_invoked.count a = 1) ∧
    List.Pairwise (fun x y =>
      (sess.events.map (fun e => e.agent_name)).indexOf x
        < (sess.events.map (fun e => e.agent_name)).indexOf y)
      (mk_session_summary sess status now).agents_invoked ∧
    (mk_session_summary sess status now).tickets_worked.Nodup ∧
    (∀ t, t ∈ (mk_session_summary sess status now).tickets_worked ↔
      (t ≠ "" ∧ ∃ e ∈ sess.events, e.ticket_key = t)) := by
  refine ⟨rfl, nodup_first_appearances _, fun a => mem_first_appearances _ a,
    fun a ha => List.count_eq_one_of_mem (nodup_first_appearances _) ha,
    pairwise_indexOf_first_appearances _, nodup_first_appearances _, ?_⟩
  intro t
  rw [show (mk_session_summary sess status now).tickets_worked
      = first_appearances
        ((sess.events.map (fun e => e.ticket_key)).filter (fun k => k ≠ ""))
    from rfl]
  rw [mem_first_appearances]
  constructor
  · intro h
    obtain ⟨hmem, hne⟩ := List.mem_filter.mp h
    obtain ⟨e, he, het⟩ := List.mem_map.mp hmem
    exact ⟨by simpa using hne, e, he, het⟩
  · rintro ⟨hne, e, he, het⟩
    exact List.mem_filter.mpr
      ⟨List.mem_map.mpr ⟨e, he, het⟩, by simpa using hne⟩

/-- Claim C9, witness: a session invoking "coding" twice, once with an empty
ticket key and once with ticket "AI-50", yields "coding" exactly once and
exactly the single non-empty ticket key. -/
theorem c9_summary_distinct_agents_tickets_witness :
    (mk_session_summary ⟨"s1", 1, "continuation", 0,
      [⟨"e1", "coding", "s1", "", 0, 1, 1, AgentStatus.success,
          0, 0, 0, 0, [], "", "m"⟩,
        ⟨"e2", "coding", "s1", "AI-50", 1, 2, 1, AgentStatus.success,
          0, 0, 0, 0, [], "", "m"⟩]⟩ "continue" 5).agents_invoked.count
        "coding" = 1 ∧
    ("AI-50" ∈ (mk_session_summary ⟨"s1", 1, "continuation", 0,
      [⟨"e1", "coding", "s1", "", 0, 1, 1, AgentStatus.success,
          0, 0, 0, 0, [], "", "m"⟩,
        ⟨"e2", "coding", "s1", "AI-50", 1, 2, 1, AgentStatus.success,
          0, 0, 0, 0, [], "", "m"⟩]⟩ "continue" 5).tickets_worked ↔
      (("AI-50" : String) ≠ "" ∧ ∃ e ∈ [(⟨"e1", "coding", "s1", "", 0, 1, 1,
          AgentStatus.success, 0, 0, 0, 0, [], "", "m"⟩ : AgentEvent),
        ⟨"e2", "coding", "s1", "AI-50", 1, 2, 1, AgentStatus.success,
          0, 0, 0, 0, [], "", "m"⟩], e.ticket_key = "AI-50")) := by
  refine ⟨(c9_summary_distinct_agents_tickets fresh_state _ "continue" 5).2.2.2.1
      "coding" ?_,
    (c9_summary_distinct_agents_tickets fresh_state _ "continue" 5).2.2.2.2.2.2
      "AI-50"⟩
  rw [(c9_summary_distinct_agents_tickets fresh_state _ "continue" 5).2.2.1
    "coding"]
  simp

/-- Claim C10: a tracker scope that exits without `set_tokens`,
`add_artifact` or `set_error` finalizes to a success event with zero tokens,
zero cost and no artifacts; and a session with no invocations closes with
zero totals and empty agents_invoked / tickets_worked. -/
theorem c10_default_event_and_empty_session
    (agent ticket eid sid model : String) (t0 t1 : ℚ)
    (st : DashboardState) (sid2 ty status : String) (n : ℕ) (ts now : ℚ) :
    (finalize_event (init_tracker agent ticket t0) eid sid model t1).status
      = AgentStatus.success ∧
    (finalize_event (init_tracker agent ticket t0) eid sid model
      t1).input_tokens = 0 ∧
    (finalize_event (init_tracker agent ticket t0) eid sid model
      t1).output_tokens = 0 ∧
    (finalize_event (init_tracker agent ticket t0) eid sid model
      t1).total_tokens = 0 ∧
    (finalize_event (init_tracker agent ticket t0) eid sid model
      t1).estimated_cost_usd = 0 ∧
    (finalize_event (init_tracker agent ticket t0) eid sid model
      t1).artifacts = [] ∧
    (mk_session_summary ⟨sid2, n, ty, ts, []⟩ status now).total_tokens = 0 ∧
    (mk_session_summary ⟨sid2, n, ty, ts, []⟩ status now).total_cost_usd
      = 0 ∧
    (mk_session_summary ⟨sid2, n, ty, ts, []⟩ status now).agents_invoked
      = [] ∧
    (mk_session_summary ⟨sid2, n, ty, ts, []⟩ status now).tickets_worked
      = [] ∧
    (end_session ⟨st, some ⟨sid2, n, ty, ts, []⟩⟩ status now).toOption.map
      Prod.snd = some (mk_session_summary ⟨sid2, n, ty, ts, []⟩ status now) := by
  refine ⟨rfl, rfl, rfl, rfl, ?_, rfl, rfl, rfl, ?_, ?_, rfl⟩
  · show estimate_cost 0 0 = 0
    norm_num [estimate_cost]
  · show first_appearances (([] : List AgentEvent).map (fun e => e.agent_name))
      = []
    simp [first_appearances]
  · show first_appearances ((([] : List AgentEvent).map
      (fun e => e.ticket_key)).filter (fun k => k ≠ "")) = []
    simp [first_appearances]

/-- The C7 scenario run: open session 1 as initializer, track agent "coding"
with tokens (1000, 500) and one artifact, end the session with status
"continue". -/
def c7_run (sid eid model : String) (t0 ts te tn : ℚ) :
    Option (Collector × SessionSummary) :=
  match start_session ⟨fresh_state, none⟩ 1 true sid t0 with
  | Except.error _ => none
  | Except.ok c1 =>
    match track_agent c1 "coding" "AI-50"
        (fun t => (t.set_tokens 1000 500).add_artifact "file:agent_metrics.py")
        eid model ts te with
    | Except.error _ => none
    | Except.ok c2 =>
      match end_session c2 "continue" tn with
      | Except.error _ => none
      | Except.ok r => some r

/-- Claim C7: the simple-session scenario yields a summary with
total_tokens = 1500 and agents_invoked = ["coding"], and a profile with
total_invocations = 1 and xp = 11 (10 base + 1 streak; no speed, recovery or
contribution bonus, the invocation lasting at least 60 seconds). -/
theorem c7_simple_session_scenario (sid eid model : String)
    (t0 ts te tn : ℚ) (hd : 60 ≤ te - ts) :
    (c7_run sid eid model t0 ts te tn).map (fun r =>
      (r.2.total_tokens, r.2.agents_invoked,
        (get_agent_profile r.1 "coding").total_invocations,
        (get_agent_profile r.1 "coding").xp))
      = some (1500, ["coding"], 1, 11) := by
  have hs : calculate_speed_bonus (te - ts) = 0 := by
    unfold calculate_speed_bonus
    rw [if_neg (by linarith), if_neg (by linarith)]
  simp only [c7_run, start_session, track_agent, end_session,
    get_agent_profile, fresh_state, init_tracker, AgentTracker.set_tokens,
    AgentTracker.add_artifact, finalize_event, previous_status_of,
    lookup_profile, fresh_profile, upsert_profile, apply_event_to_profile,
    update_streak, xp_award_for_event, calculate_total_xp_for_success,
    calculate_xp_for_successful_invocation, calculate_error_recovery_bonus,
    calculate_streak_bonus, mk_session_summary, estimate_cost, Option.map,
    List.filter, List.map, List.sum, first_appearances]
  norm_num [hs, first_appearances]

/-- Claim C7, witness: the scenario at concrete timestamps with a
60-second invocation. -/
theorem c7_simple_session_scenario_witness :
    (c7_run "s1" "e1" "m" 0 0 60 100).map (fun r =>
      (r.2.total_tokens, r.2.agents_invoked,
        (get_agent_profile r.1 "coding").total_invocations,
        (get_agent_profile r.1 "coding").xp))
      = some (1500, ["coding"], 1, 11) :=
  c7_simple_session_scenario "s1" "e1" "m" 0 0 60 100 (by norm_num)

/-- Modelled from the spec: the single structured persisted document —
a JSON-like value tree (missing module `agent_metrics`, persistence
layer). -/
inductive Json where
  | nul
  | str (s : String)
  | num (q : ℚ)
  | nat (n : ℕ)
  | int (z : ℤ)
  | arr (elems : List Json)
  | obj (fields : List (String × Json))

/-- Field lookup in a structured document object. -/
def getField : List (String × Json) → String → Option Json
  | [], _ => none
  | (k, v) :: rest, key => if k = key then some v else getField rest key

/-- Read a string value. -/
def Json.asStr : Json → Option String
  | Json.str s => some s
  | _ => none

/-- Read a natural-number value. -/
def Json.asNat : Json → Option ℕ
  | Json.nat n => some n
  | _ => none

/-- Read an integer value. -/
def Json.asInt : Json → Option ℤ
  | Json.int z => some z
  | _ => none

/-- Read a rational (numeric) value. -/
def Json.asNum : Json → Option ℚ
  | Json.num q => some q
  | _ => none

/-- Read an array value. -/
def Json.asArr : Json → Option (List Json)
  | Json.arr xs => some xs
  | _ => none

/-- Serialize an invocation status. -/
def status_to_string : AgentStatus → String
  | AgentStatus.success => "success"
  | AgentStatus.error => "error"
  | AgentStatus.timeout => "timeout"
  | AgentStatus.blocked => "blocked"

/-- Parse an invocation status. -/
def status_of_string (s : String) : Option AgentStatus :=
  if s = "success" then some AgentStatus.success
  else if s = "error" then some AgentStatus.error
  else if s = "timeout" then some AgentStatus.timeout
  else if s = "blocked" then some AgentStatus.blocked
  else none

/-- Parsing a serialized status recovers it. -/
lemma status_of_to_string (st : AgentStatus) :
    status_of_string (status_to_string st) = some st := by
  cases st <;> rfl

/-- Decode a list of strings. -/
def decode_strings : List Json → Option (List String)
  | [] => some []
  | j :: rest =>
    match j.asStr, decode_strings rest with
    | some s, some l => some (s :: l)
    | _, _ => none

/-- Decoding an encoded string list recovers it. -/
lemma decode_strings_map (l : List String) :
    decode_strings (l.map Json.str) = some l := by
  induction l with
  | nil => rfl
  | cons s rest ih => simp [decode_strings, Json.asStr, ih]

/-- Modelled from the spec: serialize one Event into the persisted document
(missing module `agent_metrics`, persistence layer). -/
def encode_event (e : AgentEvent) : Json :=
  Json.obj [
    ("event_id", Json.str e.event_id),
    ("agent_name", Json.str e.agent_name),
    ("session_id", Json.str e.session_id),
    ("ticket_key", Json.str e.ticket_key),
    ("started_at", Json.num e.started_at),
    ("ended_at", Json.num e.ended_at),
    ("duration_seconds", Json.num e.duration_seconds),
    ("status", Json.str (status_to_string e.status)),
    ("input_tokens", Json.nat e.input_tokens),
    ("output_tokens", Json.nat e.output_tokens),
    ("total_tokens", Json.nat e.total_tokens),
    ("estimated_cost_usd", Json.num e.estimated_cost_usd),
    ("artifacts", Json.arr (e.artifacts.map Json.str)),
    ("error_message", Json.str e.error_message),
    ("model_used", Json.str e.model_used)]

/-- Modelled from the spec: load one Event from the persisted document —
identification and timing fields (missing module `agent_metrics`,
persistence layer). -/
def decode_event_head (fs : List (String × Json)) :
    Option (String × String × String × String × ℚ × ℚ × ℚ) := do
  let event_id ← (getField fs "event_id").bind Json.asStr
  let agent_name ← (getField fs "agent_name").bind Json.asStr
  let session_id ← (getField fs "session_id").bind Json.asStr
  let ticket_key ← (getField fs "ticket_key").bind Json.asStr
  let started_at ← (getField fs "started_at").bind Json.asNum
  let ended_at ← (getField fs "ended_at").bind Json.asNum
  let duration_seconds ← (getField fs "duration_seconds").bind Json.asNum
  pure (event_id, agent_name, session_id, ticket_key, started_at, ended_at,
    duration_seconds)

/-- Modelled from the spec: load one Event — status, token and cost fields
(missing module `agent_metrics`, persistence layer). -/
def decode_event_mid (fs : List (String × Json)) :
    Option (AgentStatus × ℕ × ℕ × ℕ × ℚ) := do
  let status_s ← (getField fs "status").bind Json.asStr
  let status ← status_of_string status_s
  let input_tokens ← (getField fs "input_tokens").bind Json.asNat
  let output_tokens ← (getField fs "output_tokens").bind Json.asNat
  let total_tokens ← (getField fs "total_tokens").bind Json.asNat
  let estimated_cost_usd ← (getField fs "estimated_cost_usd").bind Json.asNum
  pure (status, input_tokens, output_tokens, total_tokens, estimated_cost_usd)

/-- Modelled from the spec: load one Event — artifact, error and model
fields (missing module `agent_metrics`, persistence layer). -/
def decode_event_tail (fs : List (String × Json)) :
    Option (List String × String × String) := do
  let artifacts_j ← (getField fs "artifacts").bind Json.asArr
  let artifacts ← decode_strings artifacts_j
  let error_message ← (getField fs "error_message").bind Json.asStr
  let model_used ← (getField fs "model_used").bind Json.asStr
  pure (artifacts, error_message, model_used)

/-- Modelled from the spec: load one Event from the persisted document
(missing module `agent_metrics`, persistence layer). -/
def decode_event : Json → Option AgentEvent
  | Json.obj fs =>
    match decode_event_head fs, decode_event_mid fs, decode_event_tail fs with
    | some (f1, f2, f3, f4, f5, f6, f7), some (st, f9, f10, f11, f12),
        some (f13, f14, f15) =>
      some ⟨f1, f2, f3, f4, f5, f6, f7, st, f9, f10, f11, f12, f13, f14, f15⟩
    | _, _, _ => none
  | _ => none

/-- Loading a serialized Event recovers it exactly. -/
lemma decode_encode_event (e : AgentEvent) :
    decode_event (encode_event e) = some e := by
  rcases e with ⟨f1, f2, f3, f4, f5, f6, f7, st, f9, f10, f11, f12, f13,
    f14, f15⟩
  simp only [encode_event, decode_event, decode_event_head, decode_event_mid,
    decode_event_tail, getField, String.reduceEq, ite_true, ite_false,
    Json.asStr, Json.asNum, Json.asNat, Json.asArr, Option.bind_eq_bind,
    Option.some_bind, status_of_to_string, decode_strings_map,
    Option.pure_def]

/-- Decode a list of serialized Events. -/
def decode_events_list : List Json → Option (List AgentEvent)
  | [] => some []
  | j :: rest =>
    match decode_event j, decode_events_list rest with
    | some e, some l => some (e :: l)
    | _, _ => none

/-- Decoding an encoded Event list recovers it. -/
lemma decode_events_list_map (l : List AgentEvent) :
    decode_events_list (l.map encode_event) = some l := by
  induction l with
  | nil => rfl
  | cons e rest ih => simp [decode_events_list, decode_encode_event e, ih]

/-- Modelled from the spec: serialize one AgentProfile into the persisted
document (missing module `agent_metrics`, persistence layer). -/
def encode_profile (p : AgentProfile) : Json :=
  Json.obj [
    ("agent_name", Json.str p.agent_name),
    ("total_invocations", Json.nat p.total_invocations),
    ("successful_invocations", Json.nat p.successful_invocations),
    ("failed_invocations", Json.nat p.failed_invocations),
    ("total_tokens", Json.nat p.total_tokens),
    ("total_cost_usd", Json.num p.total_cost_usd),
    ("total_duration_seconds", Json.num p.total_duration_seconds),
    ("commits", Json.nat p.commits),
    ("prs_created", Json.nat p.prs_created),
    ("prs_merged", Json.nat p.prs_merged),
    ("files_created", Json.nat p.files_created),
    ("files_modified", Json.nat p.files_modified),
    ("lines_added", Json.nat p.lines_added),
    ("lines_removed", Json.nat p.lines_removed),
    ("tests_written", Json.nat p.tests_written),
    ("issues_created", Json.nat p.issues_created),
    ("issues_completed", Json.nat p.issues_completed),
    ("messages_sent", Json.nat p.messages_sent),
    ("reviews_completed", Json.nat p.reviews_completed),
    ("success_rate", Json.num p.success_rate),
    ("avg_duration_seconds", Json.num p.avg_duration_seconds),
    ("avg_tokens_per_call", Json.num p.avg_tokens_per_call),
    ("cost_per_success", Json.num p.cost_per_success),
    ("xp", Json.int p.xp),
    ("level", Json.nat p.level),
    ("current_streak", Json.int p.current_streak),
    ("best_streak", Json.int p.best_streak),
    ("achievements", Json.arr (p.achievements.map Json.str)),
    ("strengths", Json.arr (p.strengths.map Json.str)),
    ("weaknesses", Json.arr (p.weaknesses.map Json.str)),
    ("recent_events", Json.arr (p.recent_events.map Json.str)),
    ("last_error", Json.str p.last_error),
    ("last_active", Json.num p.last_active)]

/-- Modelled from the spec: load one AgentProfile — identity and resource
counters (missing module `agent_metrics`, persistence layer). -/
def decode_profile_a (fs : List (String × Json)) :
    Option (String × ℕ × ℕ × ℕ × ℕ × ℚ × ℚ) := do
  let agent_name ← (getField fs "agent_name").bind Json.asStr
  let total_invocations ← (getField fs "total_invocations").bind Json.asNat
  let successful_invocations ←
    (getField fs "successful_invocations").bind Json.asNat
  let failed_invocations ← (getField fs "failed_invocations").bind Json.asNat
  let total_tokens ← (getField fs "total_tokens").bind Json.asNat
  let total_cost_usd ← (getField fs "total_cost_usd").bind Json.asNum
  let total_duration_seconds ←
    (getField fs "total_duration_seconds").bind Json.asNum
  pure (agent_name, total_invocations, successful_invocations,
    failed_invocations, total_tokens, total_cost_usd, total_duration_seconds)

/-- Modelled from the spec: load one AgentProfile — contribution counters,
first group (missing module `agent_metrics`, persistence layer). -/
def decode_profile_b (fs : List (String × Json)) :
    Option (ℕ × ℕ × ℕ × ℕ × ℕ × ℕ × ℕ) := do
  let commits ← (getField fs "commits").bind Json.asNat
  let prs_created ← (getField fs "prs_created").bind Json.asNat
  let prs_merged ← (getField fs "prs_merged").bind Json.asNat
  let files_created ← (getField fs "files_created").bind Json.asNat
  let files_modified ← (getField fs "files_modified").bind Json.asNat
  let lines_added ← (getField fs "lines_added").bind Json.asNat
  let lines_removed ← (getField fs "lines_removed").bind Json.asNat
  pure (commits, prs_created, prs_merged, files_created, files_modified,
    lines_added, lines_removed)

/-- Modelled from the spec: load one AgentProfile — contribution counters,
second group, and quality rates (missing module `agent_metrics`,
persistence layer). -/
def decode_profile_c (fs : List (String × Json)) :
    Option (ℕ × ℕ × ℕ × ℕ × ℕ × ℚ × ℚ) := do
  let tests_written ← (getField fs "tests_written").bind Json.asNat
  let issues_created ← (getField fs "issues_created").bind Json.asNat
  let issues_completed ← (getField fs "issues_completed").bind Json.asNat
  let messages_sent ← (getField fs "messages_sent").bind Json.asNat
  let reviews_completed ← (getField fs "reviews_completed").bind Json.asNat
  let success_rate ← (getField fs "success_rate").bind Json.asNum
  let avg_duration_seconds ←
    (getField fs "avg_duration_seconds").bind Json.asNum
  pure (tests_written, issues_created, issues_completed, messages_sent,
    reviews_completed, success_rate, avg_duration_seconds)

/-- Modelled from the spec: load one AgentProfile — remaining rates and
gamification counters (missing module `agent_metrics`, persistence
layer). -/
def decode_profile_d (fs : List (String × Json)) :
    Option (ℚ × ℚ × ℤ × ℕ × ℤ × ℤ) := do
  let avg_tokens_per_call ←
    (getField fs "avg_tokens_per_call").bind Json.asNum
  let cost_per_success ← (getField fs "cost_per_success").bind Json.asNum
  let xp ← (getField fs "xp").bind Json.asInt
  let level ← (getField fs "level").bind Json.asNat
  let current_streak ← (getField fs "current_streak").bind Json.asInt
  let best_streak ← (getField fs "best_streak").bind Json.asInt
  pure (avg_tokens_per_call, cost_per_success, xp, level, current_streak,
    best_streak)

/-- Modelled from the spec: load one AgentProfile — qualitative tags
(missing module `agent_metrics`, persistence layer). -/
def decode_profile_e (fs : List (String × Json)) :
    Option (List String × List String × List String) := do
  let achievements_j ← (getField fs "achievements").bind Json.asArr
  let achievements ← decode_strings achievements_j
  let strengths_j ← (getField fs "strengths").bind Json.asArr
  let strengths ← decode_strings strengths_j
  let weaknesses_j ← (getField fs "weaknesses").bind Json.asArr
  let weaknesses ← decode_strings weaknesses_j
  pure (achievements, strengths, weaknesses)

/-- Modelled from the spec: load one AgentProfile — bookkeeping fields
(missing module `agent_metrics`, persistence layer). -/
def decode_profile_f (fs : List (String × Json)) :
    Option (List String × String × ℚ) := do
  let recent_j ← (getField fs "recent_events").bind Json.asArr
  let recent_events ← decode_strings recent_j
  let last_error ← (getField fs "last_error").bind Json.asStr
  let last_active ← (getField fs "last_active").bind Json.asNum
  pure (recent_events, last_error, last_active)

/-- Modelled from the spec: load one AgentProfile from the persisted
document (missing module `agent_metrics`, persistence layer). -/
def decode_profile : Json → Option AgentProfile
  | Json.obj fs =>
    match decode_profile_a fs, decode_profile_b fs, decode_profile_c fs,
        decode_profile_d fs, decode_profile_e fs, decode_profile_f fs with
    | some (p1, p2, p3, p4, p5, p6, p7),
        some (p8, p9, p10, p11, p12, p13, p14),
        some (p15, p16, p17, p18, p19, p20, p21),
        some (p22, p23, p24, p25, p26, p27),
        some (p28, p29, p30), some (p31, p32, p33) =>
      some ⟨p1, p2, p3, p4, p5, p6, p7, p8, p9, p10, p11, p12, p13, p14,
        p15, p16, p17, p18, p19, p20, p21, p22, p23, p24, p25, p26, p27,
        p28, p29, p30, p31, p32, p33⟩
    | _, _, _, _, _, _ => none
  | _ => none

/-- Loading a serialized AgentProfile recovers it exactly. -/
lemma decode_encode_profile (p : AgentProfile) :
    decode_profile (encode_profile p) = some p := by
  rcases p with ⟨p1, p2, p3, p4, p5, p6, p7, p8, p9, p10, p11, p12, p13,
    p14, p15, p16, p17, p18, p19, p20, p21, p22, p23, p24, p25, p26, p27,
    p28, p29, p30, p31, p32, p33⟩
  simp only [encode_profile, decode_profile, decode_profile_a,
    decode_profile_b, decode_profile_c, decode_profile_d, decode_profile_e,
    decode_profile_f, getField, String.reduceEq, ite_true, ite_false,
    Json.asStr, Json.asNum, Json.asNat, Json.asInt, Json.asArr,
    Option.bind_eq_bind, Option.some_bind, decode_strings_map,
    Option.pure_def]

/-- Decode the name-keyed agents mapping. -/
def decode_agents : List (String × Json) → Option (List (String × AgentProfile))
  | [] => some []
  | (n, j) :: rest =>
    match decode_profile j, decode_agents rest with
    | some p, some l => some ((n, p) :: l)
    | _, _ => none

/-- Decoding an encoded agents mapping recovers it. -/
lemma decode_agents_map (l : List (String × AgentProfile)) :
    decode_agents (l.map (fun np => (np.1, encode_profile np.2))) = some l := by
  induction l with
  | nil => rfl
  | cons np rest ih => simp [decode_agents, decode_encode_profile np.2, ih]

/-- Modelled from the spec: serialize one SessionSummary into the persisted
document (missing module `agent_metrics`, persistence layer). -/
def encode_summary (s : SessionSummary) : Json :=
  Json.obj [
    ("session_id", Json.str s.session_id),
    ("session_number", Json.nat s.session_number),
    ("session_type", Json.str s.session_type),
    ("started_at", Json.num s.started_at),
    ("ended_at", Json.num s.ended_at),
    ("status", Json.str s.status),
    ("agents_invoked", Json.arr (s.agents_invoked.map Json.str)),
    ("total_tokens", Json.nat s.total_tokens),
    ("total_cost_usd", Json.num s.total_cost_usd),
    ("tickets_worked", Json.arr (s.tickets_worked.map Json.str))]

/-- Modelled from the spec: load one SessionSummary — identification and
timing fields (missing module `agent_metrics`, persistence layer). -/
def decode_summary_head (fs : List (String × Json)) :
    Option (String × ℕ × String × ℚ × ℚ × String) := do
  let session_id ← (getField fs "session_id").bind Json.asStr
  let session_number ← (getField fs "session_number").bind Json.asNat
  let session_type ← (getField fs "session_type").bind Json.asStr
  let started_at ← (getField fs "started_at").bind Json.asNum
  let ended_at ← (getField fs "ended_at").bind Json.asNum
  let status ← (getField fs "status").bind Json.asStr
  pure (session_id, session_number, session_type, started_at, ended_at,
    status)

/-- Modelled from the spec: load one SessionSummary — aggregate fields
(missing module `agent_metrics`, persistence layer). -/
def decode_summary_tail (fs : List (String × Json)) :
    Option (List String × ℕ × ℚ × List String) := do
  let agents_j ← (getField fs "agents_invoked").bind Json.asArr
  let agents_invoked ← decode_strings agents_j
  let total_tokens ← (getField fs "total_tokens").bind Json.asNat
  let total_cost_usd ← (getField fs "total_cost_usd").bind Json.asNum
  let tickets_j ← (getField fs "tickets_worked").bind Json.asArr
  let tickets_worked ← decode_strings tickets_j
  pure (agents_invoked, total_tokens, total_cost_usd, tickets_worked)

/-- Modelled from the spec: load one SessionSummary from the persisted
document (missing module `agent_metrics`, persistence layer). -/
def decode_summary : Json → Option SessionSummary
  | Json.obj fs =>
    match decode_summary_head fs, decode_summary_tail fs with
    | some (s1, s2, s3, s4, s5, s6), some (s7, s8, s9, s10) =>
      some ⟨s1, s2, s3, s4, s5, s6, s7, s8, s9, s10⟩
    | _, _ => none
  | _ => none

/-- Loading a serialized SessionSummary recovers it exactly. -/
lemma decode_encode_summary (s : SessionSummary) :
    decode_summary (encode_summary s) = some s := by
  rcases s with ⟨s1, s2, s3, s4, s5, s6, s7, s8, s9, s10⟩
  simp only [encode_summary, decode_summary, decode_summary_head,
    decode_summary_tail, getField, String.reduceEq, ite_true, ite_false,
    Json.asStr, Json.asNum, Json.asNat, Json.asArr, Option.bind_eq_bind,
    Option.some_bind, decode_strings_map, Option.pure_def]

/-- Decode a list of serialized SessionSummaries. -/
def decode_summaries : List Json → Option (List SessionSummary)
  | [] => some []
  | j :: rest =>
    match decode_summary j, decode_summaries rest with
    | some s, some l => some (s :: l)
    | _, _ => none

/-- Decoding an encoded SessionSummary list recovers it. -/
lemma decode_summaries_map (l : List SessionSummary) :
    decode_summaries (l.map encode_summary) = some l := by
  induction l with
  | nil => rfl
  | cons s rest ih => simp [decode_summaries, decode_encode_summary s, ih]

/-- Modelled from the spec: serialize the whole DashboardState into the
single persisted document (missing module `agent_metrics`, persistence
layer). -/
def encode_state (s : DashboardState) : Json :=
  Json.obj [
    ("schema_version", Json.nat s.schema_version),
    ("project_name", Json.str s.project_name),
    ("created_at", Json.num s.created_at),
    ("updated_at", Json.num s.updated_at),
    ("total_sessions", Json.nat s.total_sessions),
    ("total_tokens", Json.nat s.total_tokens),
    ("total_cost_usd", Json.num s.total_cost_usd),
    ("total_duration_seconds", Json.num s.total_duration_seconds),
    ("agents", Json.obj (s.agents.map (fun np => (np.1, encode_profile np.2)))),
    ("events", Json.arr (s.events.map encode_event)),
    ("sessions", Json.arr (s.sessions.map encode_summary))]

/-- Modelled from the spec: load the DashboardState — header and running
totals (missing module `agent_metrics`, persistence layer). -/
def decode_state_head (fs : List (String × Json)) :
    Option (ℕ × String × ℚ × ℚ × ℕ × ℕ × ℚ × ℚ) := do
  let schema_version ← (getField fs "schema_version").bind Json.asNat
  let project_name ← (getField fs "project_name").bind Json.asStr
  let created_at ← (getField fs "created_at").bind Json.asNum
  let updated_at ← (getField fs "updated_at").bind Json.asNum
  let total_sessions ← (getField fs "total_sessions").bind Json.asNat
  let total_tokens ← (getField fs "total_tokens").bind Json.asNat
  let total_cost_usd ← (getField fs "total_cost_usd").bind Json.asNum
  let total_duration_seconds ←
    (getField fs "total_duration_seconds").bind Json.asNum
  pure (schema_version, project_name, created_at, updated_at, total_sessions,
    total_tokens, total_cost_usd, total_duration_seconds)

/-- Modelled from the spec: load the DashboardState — agents mapping, event
history and session history (missing module `agent_metrics`, persistence
layer). -/
def decode_state_tail (fs : List (String × Json)) :
    Option (List (String × AgentProfile) × List AgentEvent ×
      List SessionSummary) := do
  let agents_j ← getField fs "agents"
  let agents ← match agents_j with
    | Json.obj afs => decode_agents afs
    | _ => none
  let events_j ← (getField fs "events").bind Json.asArr
  let events ← decode_events_list events_j
  let sessions_j ← (getField fs "sessions").bind Json.asArr
  let sessions ← decode_summaries sessions_j
  pure (agents, events, sessions)

/-- Modelled from the spec: load the DashboardState from the persisted
document; an unrecognized schema version fails rather than being silently
misinterpreted (missing module `agent_metrics`, persistence layer). -/
def decode_state : Json → Option DashboardState
  | Json.obj fs =>
    match decode_state_head fs, decode_state_tail fs with
    | some (v, d2, d3, d4, d5, d6, d7, d8), some (ags, evs, sss) =>
      if v = 1 then some ⟨v, d2, d3, d4, d5, d6, d7, d8, ags, evs, sss⟩
      else none
    | _, _ => none
  | _ => none

/-- Modelled from the spec: construct a collector against a persisted
location — load the document if present, else initialize a fresh
DashboardState (missing module `agent_metrics`,
`AgentMetricsCollector.__init__`). -/
def new_collector : Option Json → Option Collector
  | none => some ⟨fresh_state, none⟩
  | some j => (decode_state j).map (fun st => ⟨st, none⟩)

/-- Claim C4: serializing a DashboardState to the persisted document and
loading it back in a new collector instance reproduces an identical state —
total_sessions, the event list and every agent profile's counters equal
their pre-restart values, with no loss and no double counting. -/
theorem c4_persistence_round_trip (s : DashboardState)
    (hv : s.schema_version = 1) :
    decode_state (encode_state s) = some s ∧
    new_collector (some (encode_state s)) = some ⟨s, none⟩ ∧
    (new_collector (some (encode_state s))).map (fun c =>
      (c.state.total_sessions, c.state.events, c.state.agents))
      = some (s.total_sessions, s.events, s.agents) := by
  have h1 : decode_state (encode_state s) = some s := by
    rcases s with ⟨v, d2, d3, d4, d5, d6, d7, d8, ags, evs, sss⟩
    simp only at hv
    subst hv
    simp only [encode_state, decode_state, decode_state_head,
      decode_state_tail, getField, String.reduceEq, ite_true, ite_false,
      Json.asStr, Json.asNum, Json.asNat, Json.asArr, Option.bind_eq_bind,
      Option.some_bind, decode_agents_map, decode_events_list_map,
      decode_summaries_map, Option.pure_def, eq_self_iff_true, if_true]
  refine ⟨h1, ?_, ?_⟩
  · simp [new_collector, h1]
  · simp [new_collector, h1]

/-- Claim C4, witness: the round trip at a concrete one-session state with
one event and one agent profile. -/
theorem c4_persistence_round_trip_witness :
    decode_state (encode_state ⟨1, "p", 0, 70, 1, 1500, 21 / 2000, 60,
      [("coding", fresh_profile "coding")],
      [⟨"e1", "coding", "s1", "AI-50", 0, 60, 60, AgentStatus.success, 1000,
        500, 1500, 21 / 2000, ["file:agent_metrics.py"], "", "m"⟩],
      [⟨"s1", 1, "initializer", 0, 70, "continue", ["coding"], 1500,
        21 / 2000, ["AI-50"]⟩]⟩)
      = some ⟨1, "p", 0, 70, 1, 1500, 21 / 2000, 60,
      [("coding", fresh_profile "coding")],
      [⟨"e1", "coding", "s1", "AI-50", 0, 60, 60, AgentStatus.success, 1000,
        500, 1500, 21 / 2000, ["file:agent_metrics.py"], "", "m"⟩],
      [⟨"s1", 1, "initializer", 0, 70, "continue", ["coding"], 1500,
        21 / 2000, ["AI-50"]⟩]⟩ :=
  (c4_persistence_round_trip _ rfl).1
